import Mathlib

/-!
Verification of the Sakura Haruna Telegram bot (src/main.py): its
conversational routing, authorization check, membership-action executor
and persona responder.

The Python source wires handler functions into a `python-telegram-bot`
`ConversationHandler` (function `main`, src/main.py:281-308). Each handler
function is embedded below under its source name (`is_admin`, `start`,
`show_manage_menu`, `help_menu`, `main_menu`, `start_chat_mode`,
`handle_chat`, `kick_user`, `ban_user`, `mute_user`). The results of the
external calls a routed event can make (the privilege lookup, the three
moderation calls, the Gemini completion) are an explicit environment;
Python exceptions are modelled with `Except`, and an attribute access on
a missing (`None`) message raises.
-/

namespace Sakura

/-- Telegram chat types, as `update.effective_chat.type` reports them. -/
inductive ChatType
  | privateChat
  | group
  | supergroup
  | channel
  deriving DecidableEq, Repr

/-- `ChatMember.status` values the privilege lookup can report. -/
inductive MemberStatus
  | creator
  | administrator
  | member
  | restricted
  | leftChat
  | kicked
  deriving DecidableEq, Repr

/-- A Telegram user: identity and display name (`first_name`). -/
structure User where
  id : Nat
  firstName : String
  deriving DecidableEq, Repr

/-- The part of a Telegram message the handlers read: its text, and — when
the message replies to another message — that message's author
(`reply_to_message.from_user`). -/
structure Msg where
  text : Option String
  replyToMessage : Option User
  deriving DecidableEq, Repr

/-- A callback query: the pressed button's `callback_data` and the message
the inline keyboard was attached to (`query.message`). -/
structure CallbackQuery where
  data : String
  message : Msg
  deriving DecidableEq, Repr

/-- The slice of a Telegram `Update` the handlers read. For a command or
text-message update, `message` is present and `callbackQuery` is `none`;
for a button press, `message` is `none` (Telegram leaves `Update.message`
unset on callback updates) and `callbackQuery` is present. -/
structure Update where
  chatType : ChatType
  effectiveUser : User
  message : Option Msg
  callbackQuery : Option CallbackQuery
  deriving DecidableEq, Repr

deriving instance DecidableEq for Except

/-- The results of the external calls one routed event can make:
`get_chat_member`, `kick_chat_member`, `ban_chat_member`,
`restrict_chat_member`, and the Gemini completion (`send_message_async`
followed by reading `response.text`). `.error` models the call raising. -/
structure Env where
  chatMember : Except Unit MemberStatus
  kickResult : Except Unit Unit
  banResult : Except Unit Unit
  restrictResult : Except Unit Unit
  gemini : Except Unit String
  deriving DecidableEq, Repr

/-- An inline-keyboard button: label and `callback_data`. -/
structure Button where
  label : String
  callbackData : String
  deriving DecidableEq, Repr

/-- An outbound reply: a fresh message (`reply_text`) or an edit of the
message the pressed button was attached to (`edit_message_text`),
together with its inline keyboard (empty when none is attached). -/
inductive Out
  | send (text : String) (keyboard : List (List Button))
  | edit (text : String) (keyboard : List (List Button))
  deriving DecidableEq, Repr

/-- A platform moderation call. `restrictChatMember` records the
`can_send_messages` permission it passes. -/
inductive Action
  | kickChatMember (target : Nat)
  | banChatMember (target : Nat)
  | restrictChatMember (target : Nat) (canSendMessages : Bool)
  deriving DecidableEq, Repr

/-- Session states of the conversation router: `ConversationHandler.END`
is `IDLE`, the `CHAT_WITH_SAKURA` conversation state (src/main.py:62) is
`CHATTING`. -/
inductive SessionState
  | IDLE
  | CHATTING
  deriving DecidableEq, Repr

/-- The welcome text of `start` (src/main.py:108-112), with the invoking user. -/
def welcomeMessage (firstName : String) : String :=
  "Hello, " ++ firstName ++ "-senpai! I am Sakura Haruna, your friendly group management bot, desu! It's so nice to meet you, ne~ âœ¨\n\nWhat would you like to do? Kawaii~!"

/-- The welcome-back text of `main_menu` (src/main.py:177-180). -/
def welcomeBackMessage (firstName : String) : String :=
  "Welcome back, " ++ firstName ++ "-senpai! I am Sakura Haruna, desu! What would you like to do now? âœ¨"

/-- The denial `is_admin` itself sends (src/main.py:96). -/
def adminCommandDenial : String :=
  "You must be an admin to use this command, desu!"

/-- The denial `show_manage_menu` sends (src/main.py:130). -/
def adminMenuDenial : String :=
  "You must be an admin to access this, baka!"

/-- The management-menu text (src/main.py:133-135). -/
def managementMessage : String :=
  "Okay, senpai! How can I help you manage the group? Choose a command, desu!"

/-- The help text (src/main.py:152-163). -/
def helpMessage : String :=
  "Here's a list of things I can do, desu! ðŸ’–\n\n- **Chat with me:** Just send me a message and I'll reply with my kawaii anime personality!\n- **Group Management:** Admins can use the buttons to kick, ban, or mute users.\n- **Commands:**\n Â - `/start`: Shows the main menu.\n Â - `/help`: Shows this help message.\n Â - `/kick @username`: Kicks a user from the group (admin only).\n Â - `/ban @username`: Bans a user from the group (admin only).\n Â - `/mute @username`: Mutes a user (admin only).\n\nIf you have any questions, feel free to ask me, ne~!"

/-- The chat-entry text `start_chat_mode` shows (src/main.py:197-200). -/
def chatEntryMessage : String :=
  "Yay! Let's chat, senpai! You can talk to me now, desu! Just send me a message! Kawaii~"

/-- The fixed apologetic fallback of `handle_chat` (src/main.py:225). -/
def chatFallbackMessage : String :=
  "I'm sorry, senpai! I seem to be having a little trouble right now, ne. Please try again later!"

/-- The `/kick` success reply (src/main.py:240), with the target name. -/
def kickSuccessText (firstName : String) : String :=
  "Sayonara, " ++ firstName ++ "-kun! Hehe~ ðŸ˜œ"

/-- The `/kick` failure reply (src/main.py:242). -/
def kickFailureText : String :=
  "I couldn't kick them, senpai! Maybe they're too powerful for me, baka! ðŸ˜­"

/-- The `/kick` usage hint (src/main.py:244). -/
def kickHintText : String :=
  "Please reply to a user's message with /kick to kick them, desu!"

/-- The `/ban` success reply (src/main.py:257), with the target name. -/
def banSuccessText (firstName : String) : String :=
  "The ban hammer has been dropped on " ++ firstName ++ "-kun! ðŸ”¨"

/-- The `/ban` failure reply (src/main.py:259). -/
def banFailureText : String :=
  "I couldn't ban them, senpai! It seems my powers have been challenged! ðŸ˜Ÿ"

/-- The `/ban` usage hint (src/main.py:261). -/
def banHintText : String :=
  "Please reply to a user's message with /ban to ban them, desu!"

/-- The `/mute` success reply (src/main.py:275), with the target name. -/
def muteSuccessText (firstName : String) : String :=
  "Shhh! " ++ firstName ++ "-kun has been silenced! Muted, desu! ðŸ¤«"

/-- The `/mute` failure reply (src/main.py:277). -/
def muteFailureText : String :=
  "I couldn't mute them, senpai! It's not working, baka! ðŸ˜«"

/-- The `/mute` usage hint (src/main.py:279). -/
def muteHintText : String :=
  "Please reply to a user's message with /mute to mute them, desu!"

/-- The three-button main-menu keyboard (src/main.py:114-118 and 182-186). -/
def mainKeyboard : List (List Button) :=
  [[⟨"ðŸŒ¸ Chat with Sakura", "chat_start"⟩],
   [⟨"ðŸ› ï¸ Group Management", "manage_group"⟩],
   [⟨"â“ Help", "help_menu"⟩]]

/-- The management-menu keyboard (src/main.py:137-141). -/
def manageKeyboard : List (List Button) :=
  [[⟨"Kick User", "kick_user"⟩, ⟨"Ban User", "ban_user"⟩],
   [⟨"Mute User", "mute_user"⟩, ⟨"Unmute User", "unmute_user"⟩],
   [⟨"âª Back to Main Menu", "main_menu"⟩]]

/-- The lone back button under the help text (src/main.py:165). -/
def backKeyboard : List (List Button) :=
  [[⟨"âª Back to Main Menu", "main_menu"⟩]]

/-- `m.reply_text text` with inline keyboard `kb`: sending on a missing
message (`m = none`, as `update.message` is on a callback update) is a
Python `AttributeError`, modelled as `.error`. -/
def replyText (m : Option Msg) (text : String) (kb : List (List Button)) :
    Except Unit (List Out) :=
  match m with
  | none => .error ()
  | some _ => .ok [Out.send text kb]

/-- The body of the `try` block of `is_admin` (src/main.py:91-97): the
privilege lookup, then either an elevated status, or the in-check denial
reply — which itself raises when the update carries no message. -/
def is_admin_try (u : Update) (env : Env) : Except Unit (Bool × List Out) :=
  match env.chatMember with
  | .error _ => .error ()
  | .ok st =>
    if st = .creator ∨ st = .administrator then
      .ok (true, [])
    else
      match replyText u.message adminCommandDenial [] with
      | .error err => .error err
      | .ok outs => .ok (false, outs)

/-- `is_admin` (src/main.py:86-103): `False` outside group-type chats;
inside one, the `try` body's outcome with every exception swallowed
(`logger.error`, then `return False`). Returns the decision together with
the replies the check itself sent. -/
def is_admin (u : Update) (env : Env) : Bool × List Out :=
  if u.chatType = .group ∨ u.chatType = .supergroup then
    match is_admin_try u env with
    | .ok r => r
    | .error _ => (false, [])
  else
    (false, [])

/-- `start` (src/main.py:105-122): send the welcome message with the
three-button main menu; return `ConversationHandler.END`. -/
def start (u : Update) : Except Unit (List Out × SessionState) :=
  match replyText u.message (welcomeMessage u.effectiveUser.firstName) mainKeyboard with
  | .error err => .error err
  | .ok outs => .ok (outs, .IDLE)

/-- `show_manage_menu` (src/main.py:124-145): answer the callback, run
`is_admin`; when it denies, reply the menu denial under the button's
message (`query.message.reply_text`) and end; when it allows, edit the
message into the management menu. Always `ConversationHandler.END`. -/
def show_manage_menu (u : Update) (env : Env) :
    Except Unit (List Out × SessionState) :=
  match u.callbackQuery with
  | none => .error ()
  | some q =>
    match is_admin u env with
    | (true, outs) => .ok (outs ++ [Out.edit managementMessage manageKeyboard], .IDLE)
    | (false, outs) =>
      match replyText (some q.message) adminMenuDenial [] with
      | .error err => .error err
      | .ok outs2 => .ok (outs ++ outs2, .IDLE)

/-- `help_menu` (src/main.py:147-169): answer the callback and edit the
message into the help text with the back button. -/
def help_menu (u : Update) : Except Unit (List Out × SessionState) :=
  match u.callbackQuery with
  | none => .error ()
  | some _ => .ok ([Out.edit helpMessage backKeyboard], .IDLE)

/-- `main_menu` (src/main.py:171-190): answer the callback and edit the
message back into the three-button main menu. -/
def main_menu (u : Update) : Except Unit (List Out × SessionState) :=
  match u.callbackQuery with
  | none => .error ()
  | some _ =>
    .ok ([Out.edit (welcomeBackMessage u.effectiveUser.firstName) mainKeyboard], .IDLE)

/-- `start_chat_mode` (src/main.py:192-203): answer the callback, edit the
message into the chat-entry text, and return `CHAT_WITH_SAKURA`. -/
def start_chat_mode (u : Update) : Except Unit (List Out × SessionState) :=
  match u.callbackQuery with
  | none => .error ()
  | some _ => .ok ([Out.edit chatEntryMessage []], .CHATTING)

/-- `handle_chat` (src/main.py:205-227): read `update.message.text`; when
it is falsy (`None` or empty), just stay in chat mode; otherwise send the
text to Gemini and reply its completion, or reply the fixed fallback when
the completion raises. Always returns `CHAT_WITH_SAKURA`. -/
def handle_chat (u : Update) (env : Env) : Except Unit (List Out × SessionState) :=
  match u.message with
  | none => .error ()
  | some m =>
    match m.text with
    | none => .ok ([], .CHATTING)
    | some t =>
      if t = "" then .ok ([], .CHATTING)
      else
        match env.gemini with
        | .ok resp => .ok ([Out.send resp []], .CHATTING)
        | .error _ => .ok ([Out.send chatFallbackMessage []], .CHATTING)

/-- `kick_user` (src/main.py:229-244): bail out silently when `is_admin`
denies; with a reply target, call `kick_chat_member` and reply success or
— when the call raises — failure; without one, reply the usage hint.
`update.message` is present on every command update, so the replies here
succeed. -/
def kick_user (u : Update) (env : Env) : Except Unit (List Out × List Action) :=
  match is_admin u env with
  | (false, outs) => .ok (outs, [])
  | (true, outs) =>
    match u.message with
    | none => .error ()
    | some m =>
      match m.replyToMessage with
      | some tgt =>
        match env.kickResult with
        | .ok _ =>
          .ok (outs ++ [Out.send (kickSuccessText tgt.firstName) []],
               [Action.kickChatMember tgt.id])
        | .error _ =>
          .ok (outs ++ [Out.send kickFailureText []],
               [Action.kickChatMember tgt.id])
      | none => .ok (outs ++ [Out.send kickHintText []], [])

/-- `ban_user` (src/main.py:246-261): as `kick_user`, with
`ban_chat_member` and the ban reply texts. -/
def ban_user (u : Update) (env : Env) : Except Unit (List Out × List Action) :=
  match is_admin u env with
  | (false, outs) => .ok (outs, [])
  | (true, outs) =>
    match u.message with
    | none => .error ()
    | some m =>
      match m.replyToMessage with
      | some tgt =>
        match env.banResult with
        | .ok _ =>
          .ok (outs ++ [Out.send (banSuccessText tgt.firstName) []],
               [Action.banChatMember tgt.id])
        | .error _ =>
          .ok (outs ++ [Out.send banFailureText []],
               [Action.banChatMember tgt.id])
      | none => .ok (outs ++ [Out.send banHintText []], [])

/-- `mute_user` (src/main.py:263-279): as `kick_user`, with
`restrict_chat_member (can_send_messages := False)` and the mute reply
texts. -/
def mute_user (u : Update) (env : Env) : Except Unit (List Out × List Action) :=
  match is_admin u env with
  | (false, outs) => .ok (outs, [])
  | (true, outs) =>
    match u.message with
    | none => .error ()
    | some m =>
      match m.replyToMessage with
      | some tgt =>
        match env.restrictResult with
        | .ok _ =>
          .ok (outs ++ [Out.send (muteSuccessText tgt.firstName) []],
               [Action.restrictChatMember tgt.id false])
        | .error _ =>
          .ok (outs ++ [Out.send muteFailureText []],
               [Action.restrictChatMember tgt.id false])
      | none => .ok (outs ++ [Out.send muteHintText []], [])

/-- An inbound event as the transport delivers it: a slash command with
its message, an inline-button callback with the menu message the button
was attached to, or a free-text (non-command) message. -/
inductive Event
  | command (name : String) (msg : Msg) (sender : User) (chat : ChatType)
  | callback (tag : String) (menuMsg : Msg) (sender : User) (chat : ChatType)
  | textMessage (msg : Msg) (sender : User) (chat : ChatType)
  deriving DecidableEq, Repr

/-- The Telegram `Update` an event arrives as: command and text updates
carry `message`; callback updates carry `callback_query` (holding the
menu message) and no `message`. -/
def Event.toUpdate : Event → Update
  | .command _ msg sender chat => ⟨chat, sender, some msg, none⟩
  | .callback tag menuMsg sender chat => ⟨chat, sender, none, some ⟨tag, menuMsg⟩⟩
  | .textMessage msg sender chat => ⟨chat, sender, some msg, none⟩

/-- Adapts a conversation handler's result to the router's: the handler's
returned conversation state becomes the new session state, and no
moderation action is performed. -/
def liftConv (r : Except Unit (List Out × SessionState)) :
    Except Unit (SessionState × List Out × List Action) :=
  match r with
  | .error err => .error err
  | .ok (outs, s2) => .ok (s2, outs, [])

/-- Adapts a membership command handler's result to the router's: these
handlers return no conversation state, so the session state `s` is
unchanged. -/
def liftCmd (s : SessionState) (r : Except Unit (List Out × List Action)) :
    Except Unit (SessionState × List Out × List Action) :=
  match r with
  | .error err => .error err
  | .ok (outs, acts) => .ok (s, outs, acts)

/-- The Conversation Router: the handler wiring of `main`
(src/main.py:281-308). Modelled from the spec: the dispatch policy of the
hosting framework's `ConversationHandler` — which registered handler an
event reaches in which session state — is `python-telegram-bot` library
code outside this repository, so it is taken from spec section 4.1: the
`/start` entry point, the four registered callback patterns and the three
membership `CommandHandler`s are reachable in every state, while the
free-text handler (registered only under `CHAT_WITH_SAKURA`) fires only
in `CHATTING`. Events no registered handler matches are left unhandled:
no reply, no action, no state change. -/
def route (s : SessionState) (e : Event) (env : Env) :
    Except Unit (SessionState × List Out × List Action) :=
  match e with
  | .command n _ _ _ =>
    if n = "start" then liftConv (start e.toUpdate)
    else if n = "kick" then liftCmd s (kick_user e.toUpdate env)
    else if n = "ban" then liftCmd s (ban_user e.toUpdate env)
    else if n = "mute" then liftCmd s (mute_user e.toUpdate env)
    else .ok (s, [], [])
  | .callback tag _ _ _ =>
    if tag = "chat_start" then liftConv (start_chat_mode e.toUpdate)
    else if tag = "manage_group" then liftConv (show_manage_menu e.toUpdate env)
    else if tag = "help_menu" then liftConv (help_menu e.toUpdate)
    else if tag = "main_menu" then liftConv (main_menu e.toUpdate)
    else .ok (s, [], [])
  | .textMessage _ _ _ =>
    match s with
    | .CHATTING => liftConv (handle_chat e.toUpdate env)
    | .IDLE => .ok (s, [], [])

/-- The session state after routing: the state component of `route`. Were
the routed event to raise unhandled, the framework would leave the
conversation state unchanged; `route_never_raises` below shows that case
never occurs. -/
def routeState (s : SessionState) (e : Event) (env : Env) : SessionState :=
  match route s e env with
  | .ok (s2, _, _) => s2
  | .error _ => s

/-- The three membership commands. -/
def isMembershipCommand (n : String) : Prop :=
  n = "kick" ∨ n = "ban" ∨ n = "mute"

/-- `is_admin`'s decision, computed directly from the chat type and the
lookup result: a group-type chat and a completed lookup reporting creator
or administrator. -/
def authorized (chat : ChatType) (env : Env) : Bool :=
  if chat = .group ∨ chat = .supergroup then
    match env.chatMember with
    | .ok st => if st = .creator ∨ st = .administrator then true else false
    | .error _ => false
  else false

/-- The one situation in which `is_admin` reaches its own denial reply: a
group-type chat and a completed lookup reporting a non-elevated status.
(On a command update the reply is then sent; on a callback update sending
it raises.) -/
def deniedByLookup (chat : ChatType) (env : Env) : Bool :=
  if chat = .group ∨ chat = .supergroup then
    match env.chatMember with
    | .ok st => if st = .creator ∨ st = .administrator then false else true
    | .error _ => false
  else false

/-- The platform call each membership command makes against a target:
`/mute` restricts with `can_send_messages := false`. -/
def commandAction (n : String) (target : Nat) : Action :=
  if n = "kick" then .kickChatMember target
  else if n = "ban" then .banChatMember target
  else .restrictChatMember target false

/-- The environment's result for the platform call of membership command
`n`. -/
def commandResult (n : String) (env : Env) : Except Unit Unit :=
  if n = "kick" then env.kickResult
  else if n = "ban" then env.banResult
  else env.restrictResult

/-- The usage hint of membership command `n`. -/
def commandHintText (n : String) : String :=
  if n = "kick" then kickHintText
  else if n = "ban" then banHintText
  else muteHintText

/-- The success reply of membership command `n` for a target name. -/
def commandSuccessText (n : String) (firstName : String) : String :=
  if n = "kick" then kickSuccessText firstName
  else if n = "ban" then banSuccessText firstName
  else muteSuccessText firstName

/-- The failure reply of membership command `n`. -/
def commandFailureText (n : String) : String :=
  if n = "kick" then kickFailureText
  else if n = "ban" then banFailureText
  else muteFailureText

/-- The single reply an authorized membership command with a reply target
sends: the success text when the platform call completes, the failure
text when it raises. -/
def commandReply (n : String) (env : Env) (firstName : String) : Out :=
  match commandResult n env with
  | .ok _ => .send (commandSuccessText n firstName) []
  | .error _ => .send (commandFailureText n) []

/-- The single reply `handle_chat` sends for nonempty text: the Gemini
completion on success, the fixed apologetic fallback when the call
raises. -/
def personaReply (env : Env) : Out :=
  match env.gemini with
  | .ok resp => .send resp []
  | .error _ => .send chatFallbackMessage []

/-- The event is the begin-chat button press (callback tag `chat_start`). -/
def Event.beginsChat : Event → Bool
  | .callback tag _ _ _ => tag == "chat_start"
  | _ => false

/-- The event reaches a handler that returns `ConversationHandler.END`:
the `/start` command or one of the three recognized menu-navigation
callbacks. -/
def Event.endsConversation : Event → Bool
  | .command n _ _ _ => n == "start"
  | .callback tag _ _ _ =>
    tag == "manage_group" || tag == "help_menu" || tag == "main_menu"
  | .textMessage _ _ _ => false

/-- A sample invoker. -/
def taro : User := ⟨7, "Taro"⟩

/-- A sample moderation target. -/
def hanako : User := ⟨8, "Hanako"⟩

/-- A sample environment: every external call completes and the privilege
lookup reports the plain `member` status. -/
def sampleEnv : Env := ⟨.ok .member, .ok (), .ok (), .ok (), .ok "Konnichiwa, senpai!"⟩

/-- A sample environment whose privilege lookup reports `administrator`. -/
def adminEnv : Env := ⟨.ok .administrator, .ok (), .ok (), .ok (), .ok "Konnichiwa, senpai!"⟩

/-- On a command update (message present, no callback query), `is_admin`
decides `authorized` and sends its own denial reply exactly in the
`deniedByLookup` case. -/
theorem is_admin_command_update (m : Msg) (sender : User) (chat : ChatType) (env : Env) :
    is_admin ⟨chat, sender, some m, none⟩ env =
      (authorized chat env,
       if deniedByLookup chat env then [Out.send adminCommandDenial []] else []) := by
  unfold is_admin is_admin_try authorized deniedByLookup replyText
  by_cases hg : chat = .group ∨ chat = .supergroup
  · simp only [if_pos hg]
    cases h : env.chatMember with
    | error e => rfl
    | ok st =>
      by_cases ha : st = .creator ∨ st = .administrator
      · simp [ha]
      · simp [ha]
  · simp [hg]

/-- On a callback update (no message), `is_admin` still decides
`authorized` but never sends a reply: its in-check denial attempt raises
on the missing message and the exception is swallowed. -/
theorem is_admin_callback_update (q : CallbackQuery) (sender : User) (chat : ChatType) (env : Env) :
    is_admin ⟨chat, sender, none, some q⟩ env = (authorized chat env, []) := by
  unfold is_admin is_admin_try authorized replyText
  by_cases hg : chat = .group ∨ chat = .supergroup
  · simp only [if_pos hg]
    cases h : env.chatMember with
    | error e => rfl
    | ok st =>
      by_cases ha : st = .creator ∨ st = .administrator
      · simp [ha]
      · simp [ha]
  · simp [hg]

/-- An authorized invoker is never in the denial-reply case. -/
theorem deniedByLookup_false_of_authorized (chat : ChatType) (env : Env)
    (h : authorized chat env = true) : deniedByLookup chat env = false := by
  unfold authorized at h
  unfold deniedByLookup
  by_cases hg : chat = .group ∨ chat = .supergroup
  · simp only [if_pos hg] at h ⊢
    cases hm : env.chatMember with
    | error e => rfl
    | ok st =>
      simp only [hm] at h
      by_cases ha : st = .creator ∨ st = .administrator
      · simp [ha]
      · simp [ha] at h
  · simp [hg] at h

/-- Unauthorized `/kick`: no platform action; the only possible reply is
the denial `is_admin` itself sent. -/
theorem kick_user_unauthorized (m : Msg) (sender : User) (chat : ChatType) (env : Env)
    (h : authorized chat env = false) :
    kick_user ⟨chat, sender, some m, none⟩ env =
      .ok ((if deniedByLookup chat env then [Out.send adminCommandDenial []] else []), []) := by
  unfold kick_user
  rw [is_admin_command_update, h]

/-- Authorized `/kick` without a reply target: the usage hint, no
platform action. -/
theorem kick_user_no_target (m : Msg) (sender : User) (chat : ChatType) (env : Env)
    (h : authorized chat env = true) (ht : m.replyToMessage = none) :
    kick_user ⟨chat, sender, some m, none⟩ env = .ok ([Out.send kickHintText []], []) := by
  unfold kick_user
  rw [is_admin_command_update, h, deniedByLookup_false_of_authorized chat env h]
  simp [ht]

/-- Authorized `/kick` with a reply target: exactly one `kick_chat_member`
call and exactly one reply (success or failure text). -/
theorem kick_user_target (m : Msg) (sender : User) (chat : ChatType) (env : Env) (tgt : User)
    (h : authorized chat env = true) (ht : m.replyToMessage = some tgt) :
    kick_user ⟨chat, sender, some m, none⟩ env =
      .ok ([commandReply "kick" env tgt.firstName], [commandAction "kick" tgt.id]) := by
  unfold kick_user
  rw [is_admin_command_update, h, deniedByLookup_false_of_authorized chat env h]
  cases hk : env.kickResult with
  | ok v => simp [ht, hk, commandReply, commandResult, commandAction, commandSuccessText]
  | error e => simp [ht, hk, commandReply, commandResult, commandAction, commandFailureText]

/-- Unauthorized `/ban`: as `kick_user_unauthorized`. -/
theorem ban_user_unauthorized (m : Msg) (sender : User) (chat : ChatType) (env : Env)
    (h : authorized chat env = false) :
    ban_user ⟨chat, sender, some m, none⟩ env =
      .ok ((if deniedByLookup chat env then [Out.send adminCommandDenial []] else []), []) := by
  unfold ban_user
  rw [is_admin_command_update, h]

/-- Authorized `/ban` without a reply target: the usage hint, no platform
action. -/
theorem ban_user_no_target (m : Msg) (sender : User) (chat : ChatType) (env : Env)
    (h : authorized chat env = true) (ht : m.replyToMessage = none) :
    ban_user ⟨chat, sender, some m, none⟩ env = .ok ([Out.send banHintText []], []) := by
  unfold ban_user
  rw [is_admin_command_update, h, deniedByLookup_false_of_authorized chat env h]
  simp [ht]

/-- Authorized `/ban` with a reply target: exactly one `ban_chat_member`
call and exactly one reply. -/
theorem ban_user_target (m : Msg) (sender : User) (chat : ChatType) (env : Env) (tgt : User)
    (h : authorized chat env = true) (ht : m.replyToMessage = some tgt) :
    ban_user ⟨chat, sender, some m, none⟩ env =
      .ok ([commandReply "ban" env tgt.firstName], [commandAction "ban" tgt.id]) := by
  unfold ban_user
  rw [is_admin_command_update, h, deniedByLookup_false_of_authorized chat env h]
  cases hk : env.banResult with
  | ok v => simp [ht, hk, commandReply, commandResult, commandAction, commandSuccessText]
  | error e => simp [ht, hk, commandReply, commandResult, commandAction, commandFailureText]

/-- Unauthorized `/mute`: as `kick_user_unauthorized`. -/
theorem mute_user_unauthorized (m : Msg) (sender : User) (chat : ChatType) (env : Env)
    (h : authorized chat env = false) :
    mute_user ⟨chat, sender, some m, none⟩ env =
      .ok ((if deniedByLookup chat env then [Out.send adminCommandDenial []] else []), []) := by
  unfold mute_user
  rw [is_admin_command_update, h]

/-- Authorized `/mute` without a reply target: the usage hint, no
platform action. -/
theorem mute_user_no_target (m : Msg) (sender : User) (chat : ChatType) (env : Env)
    (h : authorized chat env = true) (ht : m.replyToMessage = none) :
    mute_user ⟨chat, sender, some m, none⟩ env = .ok ([Out.send muteHintText []], []) := by
  unfold mute_user
  rw [is_admin_command_update, h, deniedByLookup_false_of_authorized chat env h]
  simp [ht]

/-- Authorized `/mute` with a reply target: exactly one
`restrict_chat_member (can_send_messages := false)` call and exactly one
reply. -/
theorem mute_user_target (m : Msg) (sender : User) (chat : ChatType) (env : Env) (tgt : User)
    (h : authorized chat env = true) (ht : m.replyToMessage = some tgt) :
    mute_user ⟨chat, sender, some m, none⟩ env =
      .ok ([commandReply "mute" env tgt.firstName], [commandAction "mute" tgt.id]) := by
  unfold mute_user
  rw [is_admin_command_update, h, deniedByLookup_false_of_authorized chat env h]
  cases hk : env.restrictResult with
  | ok v => simp [ht, hk, commandReply, commandResult, commandAction, commandSuccessText]
  | error e => simp [ht, hk, commandReply, commandResult, commandAction, commandFailureText]

/-- `/kick` never raises on a command update. -/
theorem kick_user_ok (m : Msg) (sender : User) (chat : ChatType) (env : Env) :
    ∃ outs acts, kick_user ⟨chat, sender, some m, none⟩ env = .ok (outs, acts) := by
  by_cases h : authorized chat env = true
  · cases ht : m.replyToMessage with
    | none => exact ⟨_, _, kick_user_no_target m sender chat env h ht⟩
    | some tgt => exact ⟨_, _, kick_user_target m sender chat env tgt h ht⟩
  · exact ⟨_, _, kick_user_unauthorized m sender chat env (by simpa using h)⟩

/-- `/ban` never raises on a command update. -/
theorem ban_user_ok (m : Msg) (sender : User) (chat : ChatType) (env : Env) :
    ∃ outs acts, ban_user ⟨chat, sender, some m, none⟩ env = .ok (outs, acts) := by
  by_cases h : authorized chat env = true
  · cases ht : m.replyToMessage with
    | none => exact ⟨_, _, ban_user_no_target m sender chat env h ht⟩
    | some tgt => exact ⟨_, _, ban_user_target m sender chat env tgt h ht⟩
  · exact ⟨_, _, ban_user_unauthorized m sender chat env (by simpa using h)⟩

/-- `/mute` never raises on a command update. -/
theorem mute_user_ok (m : Msg) (sender : User) (chat : ChatType) (env : Env) :
    ∃ outs acts, mute_user ⟨chat, sender, some m, none⟩ env = .ok (outs, acts) := by
  by_cases h : authorized chat env = true
  · cases ht : m.replyToMessage with
    | none => exact ⟨_, _, mute_user_no_target m sender chat env h ht⟩
    | some tgt => exact ⟨_, _, mute_user_target m sender chat env tgt h ht⟩
  · exact ⟨_, _, mute_user_unauthorized m sender chat env (by simpa using h)⟩

/-- `show_manage_menu` on a callback update: always `IDLE`, and exactly
one output — the management menu when authorized, the handler's denial
reply otherwise (the in-check denial of `is_admin` raised on the missing
message and was swallowed). -/
theorem show_manage_menu_spec (q : CallbackQuery) (sender : User) (chat : ChatType) (env : Env) :
    show_manage_menu ⟨chat, sender, none, some q⟩ env =
      .ok ((if authorized chat env then [Out.edit managementMessage manageKeyboard]
            else [Out.send adminMenuDenial []]), .IDLE) := by
  unfold show_manage_menu
  rw [is_admin_callback_update]
  cases h : authorized chat env with
  | true => simp
  | false => simp [replyText]

/-- `handle_chat` on a text update: always stays `CHATTING`; exactly one
reply (`personaReply`) when the text is nonempty, none when it is falsy. -/
theorem handle_chat_spec (mt : Option String) (rt : Option User) (sender : User)
    (chat : ChatType) (env : Env) :
    handle_chat ⟨chat, sender, some ⟨mt, rt⟩, none⟩ env =
      .ok ((match mt with
            | none => []
            | some t => if t = "" then [] else [personaReply env]), .CHATTING) := by
  cases mt with
  | none => rfl
  | some t =>
    by_cases h : t = ""
    · simp [handle_chat, h]
    · cases hg : env.gemini with
      | ok r => simp [handle_chat, personaReply, h, hg]
      | error er => simp [handle_chat, personaReply, h, hg]

/-- No routed event raises an exception to the transport: every event
produces an `.ok` outcome. -/
theorem route_never_raises (s : SessionState) (e : Event) (env : Env) :
    ∃ r, route s e env = .ok r := by
  cases e with
  | command n msg sender chat =>
    by_cases h1 : n = "start"
    · subst h1; exact ⟨_, rfl⟩
    by_cases h2 : n = "kick"
    · subst h2
      obtain ⟨o, a, hk⟩ := kick_user_ok msg sender chat env
      have hr : route s (.command "kick" msg sender chat) env =
          liftCmd s (kick_user ⟨chat, sender, some msg, none⟩ env) := rfl
      exact ⟨(s, o, a), by rw [hr, hk]; rfl⟩
    by_cases h3 : n = "ban"
    · subst h3
      obtain ⟨o, a, hk⟩ := ban_user_ok msg sender chat env
      have hr : route s (.command "ban" msg sender chat) env =
          liftCmd s (ban_user ⟨chat, sender, some msg, none⟩ env) := rfl
      exact ⟨(s, o, a), by rw [hr, hk]; rfl⟩
    by_cases h4 : n = "mute"
    · subst h4
      obtain ⟨o, a, hk⟩ := mute_user_ok msg sender chat env
      have hr : route s (.command "mute" msg sender chat) env =
          liftCmd s (mute_user ⟨chat, sender, some msg, none⟩ env) := rfl
      exact ⟨(s, o, a), by rw [hr, hk]; rfl⟩
    refine ⟨(s, [], []), ?_⟩
    simp only [route]
    rw [if_neg h1, if_neg h2, if_neg h3, if_neg h4]
  | callback tag menuMsg sender chat =>
    by_cases h1 : tag = "chat_start"
    · subst h1; exact ⟨_, rfl⟩
    by_cases h2 : tag = "manage_group"
    · subst h2
      have hr : route s (.callback "manage_group" menuMsg sender chat) env =
          liftConv (show_manage_menu ⟨chat, sender, none, some ⟨"manage_group", menuMsg⟩⟩ env) :=
        rfl
      refine ⟨(.IDLE,
        (if authorized chat env then [Out.edit managementMessage manageKeyboard]
         else [Out.send adminMenuDenial []]), []), ?_⟩
      rw [hr, show_manage_menu_spec]
      rfl
    by_cases h3 : tag = "help_menu"
    · subst h3; exact ⟨_, rfl⟩
    by_cases h4 : tag = "main_menu"
    · subst h4; exact ⟨_, rfl⟩
    refine ⟨(s, [], []), ?_⟩
    simp only [route]
    rw [if_neg h1, if_neg h2, if_neg h3, if_neg h4]
  | textMessage msg sender chat =>
    cases s with
    | IDLE => exact ⟨_, rfl⟩
    | CHATTING =>
      obtain ⟨mt, rt⟩ := msg
      have hr : route .CHATTING (.textMessage ⟨mt, rt⟩ sender chat) env =
          liftConv (handle_chat ⟨chat, sender, some ⟨mt, rt⟩, none⟩ env) := rfl
      exact ⟨_, by rw [hr, handle_chat_spec]; rfl⟩

/-- C1: for every session state, routing a `/start` command resets the
session to `IDLE` and sends exactly one reply — the welcome message with
the main-menu keyboard — whose buttons are exactly the three main-menu
buttons (callback tags `chat_start`, `manage_group`, `help_menu`, one per
row: Chat with Sakura, Group Management, Help). -/
theorem C1_start_resets_to_idle_and_shows_main_menu
    (s : SessionState) (msg : Msg) (sender : User) (chat : ChatType) (env : Env) :
    route s (.command "start" msg sender chat) env =
      .ok (.IDLE, [Out.send (welcomeMessage sender.firstName) mainKeyboard], []) ∧
    mainKeyboard.flatten.map Button.callbackData = ["chat_start", "manage_group", "help_menu"] :=
  ⟨rfl, rfl⟩

/-- C3: routing `/kick`, `/ban` or `/mute` leaves the session state
unchanged — in both `IDLE` and `CHATTING`, for every environment — and
never raises. -/
theorem C3_membership_commands_preserve_state
    (s : SessionState) (n : String) (msg : Msg) (sender : User) (chat : ChatType) (env : Env)
    (hn : isMembershipCommand n) :
    ∃ outs acts, route s (.command n msg sender chat) env = .ok (s, outs, acts) := by
  rcases hn with h1 | h1 | h1
  · subst h1
    obtain ⟨o, a, hk⟩ := kick_user_ok msg sender chat env
    exact ⟨o, a, by
      rw [show route s (.command "kick" msg sender chat) env =
          liftCmd s (kick_user ⟨chat, sender, some msg, none⟩ env) from rfl, hk]; rfl⟩
  · subst h1
    obtain ⟨o, a, hk⟩ := ban_user_ok msg sender chat env
    exact ⟨o, a, by
      rw [show route s (.command "ban" msg sender chat) env =
          liftCmd s (ban_user ⟨chat, sender, some msg, none⟩ env) from rfl, hk]; rfl⟩
  · subst h1
    obtain ⟨o, a, hk⟩ := mute_user_ok msg sender chat env
    exact ⟨o, a, by
      rw [show route s (.command "mute" msg sender chat) env =
          liftCmd s (mute_user ⟨chat, sender, some msg, none⟩ env) from rfl, hk]; rfl⟩

/-- C3 witness: `/kick` routed while `CHATTING` keeps the state
`CHATTING`. -/
theorem C3_membership_commands_preserve_state_witness :
    isMembershipCommand "kick" ∧
    ∃ outs acts,
      route .CHATTING (.command "kick" ⟨some "/kick", none⟩ taro .group) sampleEnv =
        .ok (.CHATTING, outs, acts) :=
  ⟨Or.inl rfl,
   C3_membership_commands_preserve_state .CHATTING "kick" ⟨some "/kick", none⟩ taro .group
     sampleEnv (Or.inl rfl)⟩

/-- C5: in `CHATTING`, a non-command text message with nonempty body
produces exactly one outbound reply — the Gemini completion on success,
the fixed apologetic fallback on failure (`personaReply`) — no exception
surfaces, and the session stays `CHATTING`. -/
theorem C5_chatting_text_single_persona_reply
    (body : String) (rt : Option User) (sender : User) (chat : ChatType) (env : Env)
    (hbody : body ≠ "") :
    route .CHATTING (.textMessage ⟨some body, rt⟩ sender chat) env =
      .ok (.CHATTING, [personaReply env], []) := by
  rw [show route .CHATTING (.textMessage ⟨some body, rt⟩ sender chat) env =
      liftConv (handle_chat ⟨chat, sender, some ⟨some body, rt⟩, none⟩ env) from rfl,
    handle_chat_spec]
  simp [hbody, liftConv]

/-- C5 witness: "hello" in `CHATTING` with a failing Gemini call yields
exactly the persona reply (here the fallback). -/
theorem C5_chatting_text_single_persona_reply_witness :
    ("hello" : String) ≠ "" ∧
    route .CHATTING (.textMessage ⟨some "hello", none⟩ taro .privateChat)
        ⟨.ok .member, .ok (), .ok (), .ok (), .error ()⟩ =
      .ok (.CHATTING, [personaReply ⟨.ok .member, .ok (), .ok (), .ok (), .error ()⟩], []) :=
  ⟨by decide,
   C5_chatting_text_single_persona_reply "hello" none taro .privateChat
     ⟨.ok .member, .ok (), .ok (), .ok (), .error ()⟩ (by decide)⟩

/-- C9: a callback whose tag is not one of the four recognized tags
(`chat_start`, `manage_group`, `help_menu`, `main_menu`) is ignored: no
reply, no action, no state change. -/
theorem C9_unrecognized_callback_ignored
    (s : SessionState) (tag : String) (menuMsg : Msg) (sender : User) (chat : ChatType)
    (env : Env)
    (h : ¬(tag = "chat_start" ∨ tag = "manage_group" ∨ tag = "help_menu" ∨
           tag = "main_menu")) :
    route s (.callback tag menuMsg sender chat) env = .ok (s, [], []) := by
  push_neg at h
  obtain ⟨h1, h2, h3, h4⟩ := h
  simp only [route]
  rw [if_neg h1, if_neg h2, if_neg h3, if_neg h4]

/-- C9 witness: the management menu's own `kick_user` button tag is not
among the recognized tags, so pressing it does nothing. -/
theorem C9_unrecognized_callback_ignored_witness :
    ¬(("kick_user" : String) = "chat_start" ∨ ("kick_user" : String) = "manage_group" ∨
      ("kick_user" : String) = "help_menu" ∨ ("kick_user" : String) = "main_menu") ∧
    route .IDLE (.callback "kick_user" ⟨some "menu", none⟩ taro .group) adminEnv =
      .ok (.IDLE, [], []) :=
  ⟨by decide,
   C9_unrecognized_callback_ignored .IDLE "kick_user" ⟨some "menu", none⟩ taro .group adminEnv
     (by decide)⟩

/-- C4 counterexample: `/kick` issued in a one-to-one (private) chat
invokes no platform action but also produces no reply at all — `is_admin`
returns `False` without sending anything and `kick_user` returns
silently — refuting the claim that a denial reply is always produced. -/
theorem C4_counterexample :
    route .IDLE (.command "kick" ⟨some "/kick", some hanako⟩ taro .privateChat) sampleEnv =
      .ok (.IDLE, [], []) :=
  rfl

/-- C4 amended: when `is_admin` does not authorize the invoker, `/kick`,
`/ban` and `/mute` never invoke a platform action; a denial reply is
produced exactly in the `deniedByLookup` case (group-type chat, lookup
completed, non-elevated status) — in a non-group chat, or when the
lookup itself raises, the command produces no reply at all. -/
theorem C4_unauthorized_no_action_denial_only_on_lookup
    (s : SessionState) (n : String) (msg : Msg) (sender : User) (chat : ChatType) (env : Env)
    (hn : isMembershipCommand n) (h : authorized chat env = false) :
    route s (.command n msg sender chat) env =
      .ok (s, (if deniedByLookup chat env then [Out.send adminCommandDenial []] else []),
        []) := by
  rcases hn with h1 | h1 | h1
  · subst h1
    rw [show route s (.command "kick" msg sender chat) env =
        liftCmd s (kick_user ⟨chat, sender, some msg, none⟩ env) from rfl,
      kick_user_unauthorized msg sender chat env h]
    rfl
  · subst h1
    rw [show route s (.command "ban" msg sender chat) env =
        liftCmd s (ban_user ⟨chat, sender, some msg, none⟩ env) from rfl,
      ban_user_unauthorized msg sender chat env h]
    rfl
  · subst h1
    rw [show route s (.command "mute" msg sender chat) env =
        liftCmd s (mute_user ⟨chat, sender, some msg, none⟩ env) from rfl,
      mute_user_unauthorized msg sender chat env h]
    rfl

/-- C4 witness: a plain member issuing `/mute` in a group chat gets the
in-check denial reply and no action. -/
theorem C4_unauthorized_no_action_denial_only_on_lookup_witness :
    isMembershipCommand "mute" ∧ authorized .group sampleEnv = false ∧
    route .IDLE (.command "mute" ⟨some "/mute", some hanako⟩ taro .group) sampleEnv =
      .ok (.IDLE,
        (if deniedByLookup .group sampleEnv then [Out.send adminCommandDenial []] else []),
        []) :=
  ⟨Or.inr (Or.inr rfl), by decide,
   C4_unauthorized_no_action_denial_only_on_lookup .IDLE "mute" ⟨some "/mute", some hanako⟩
     taro .group sampleEnv (Or.inr (Or.inr rfl)) (by decide)⟩

/-- C7: an authorized invoker issuing `/kick`, `/ban` or `/mute` without
replying to a target message gets exactly the usage-hint reply and no
platform action is invoked. -/
theorem C7_missing_target_usage_hint
    (s : SessionState) (n : String) (msg : Msg) (sender : User) (chat : ChatType) (env : Env)
    (hn : isMembershipCommand n) (h : authorized chat env = true)
    (ht : msg.replyToMessage = none) :
    route s (.command n msg sender chat) env =
      .ok (s, [Out.send (commandHintText n) []], []) := by
  rcases hn with h1 | h1 | h1
  · subst h1
    rw [show route s (.command "kick" msg sender chat) env =
        liftCmd s (kick_user ⟨chat, sender, some msg, none⟩ env) from rfl,
      kick_user_no_target msg sender chat env h ht]
    rfl
  · subst h1
    rw [show route s (.command "ban" msg sender chat) env =
        liftCmd s (ban_user ⟨chat, sender, some msg, none⟩ env) from rfl,
      ban_user_no_target msg sender chat env h ht]
    rfl
  · subst h1
    rw [show route s (.command "mute" msg sender chat) env =
        liftCmd s (mute_user ⟨chat, sender, some msg, none⟩ env) from rfl,
      mute_user_no_target msg sender chat env h ht]
    rfl

/-- C7 witness: an administrator issuing `/ban` with no reply target gets
the `/ban` usage hint. -/
theorem C7_missing_target_usage_hint_witness :
    isMembershipCommand "ban" ∧ authorized .supergroup adminEnv = true ∧
    (⟨some "/ban", none⟩ : Msg).replyToMessage = none ∧
    route .IDLE (.command "ban" ⟨some "/ban", none⟩ taro .supergroup) adminEnv =
      .ok (.IDLE, [Out.send (commandHintText "ban") []], []) :=
  ⟨Or.inr (Or.inl rfl), by decide, rfl,
   C7_missing_target_usage_hint .IDLE "ban" ⟨some "/ban", none⟩ taro .supergroup adminEnv
     (Or.inr (Or.inl rfl)) (by decide) rfl⟩

/-- C8: an authorized invoker issuing `/kick`, `/ban` or `/mute` as a
reply to a target's message triggers exactly one corresponding platform
call and exactly one reply, no exception surfaces, and on platform
success the reply text contains the target's display name. -/
theorem C8_authorized_reply_one_action_one_reply
    (s : SessionState) (n : String) (msg : Msg) (sender : User) (chat : ChatType) (env : Env)
    (tgt : User) (hn : isMembershipCommand n) (h : authorized chat env = true)
    (ht : msg.replyToMessage = some tgt) :
    route s (.command n msg sender chat) env =
      .ok (s, [commandReply n env tgt.firstName], [commandAction n tgt.id]) ∧
    (commandResult n env = .ok () →
      ∃ pre post, commandReply n env tgt.firstName =
        .send (pre ++ tgt.firstName ++ post) []) := by
  rcases hn with h1 | h1 | h1
  · subst h1
    refine ⟨?_, ?_⟩
    · rw [show route s (.command "kick" msg sender chat) env =
          liftCmd s (kick_user ⟨chat, sender, some msg, none⟩ env) from rfl,
        kick_user_target msg sender chat env tgt h ht]
      rfl
    · intro hres
      unfold commandReply
      rw [hres]
      exact ⟨_, _, rfl⟩
  · subst h1
    refine ⟨?_, ?_⟩
    · rw [show route s (.command "ban" msg sender chat) env =
          liftCmd s (ban_user ⟨chat, sender, some msg, none⟩ env) from rfl,
        ban_user_target msg sender chat env tgt h ht]
      rfl
    · intro hres
      unfold commandReply
      rw [hres]
      exact ⟨_, _, rfl⟩
  · subst h1
    refine ⟨?_, ?_⟩
    · rw [show route s (.command "mute" msg sender chat) env =
          liftCmd s (mute_user ⟨chat, sender, some msg, none⟩ env) from rfl,
        mute_user_target msg sender chat env tgt h ht]
      rfl
    · intro hres
      unfold commandReply
      rw [hres]
      exact ⟨_, _, rfl⟩

/-- C8 witness: an administrator replying `/kick` to Hanako's message:
one `kick_chat_member` call, one reply containing "Hanako". -/
theorem C8_authorized_reply_one_action_one_reply_witness :
    isMembershipCommand "kick" ∧ authorized .group adminEnv = true ∧
    (⟨some "/kick", some hanako⟩ : Msg).replyToMessage = some hanako ∧
    (route .IDLE (.command "kick" ⟨some "/kick", some hanako⟩ taro .group) adminEnv =
      .ok (.IDLE, [commandReply "kick" adminEnv hanako.firstName],
        [commandAction "kick" hanako.id]) ∧
     (commandResult "kick" adminEnv = .ok () →
       ∃ pre post, commandReply "kick" adminEnv hanako.firstName =
         .send (pre ++ hanako.firstName ++ post) [])) :=
  ⟨Or.inl rfl, by decide, rfl,
   C8_authorized_reply_one_action_one_reply .IDLE "kick" ⟨some "/kick", some hanako⟩ taro
     .group adminEnv hanako (Or.inl rfl) (by decide) rfl⟩

/-- C6: the management menu does offer an Unmute button (tag
`unmute_user`), but no handler is registered for that tag: pressing it is
routed as an unrecognized callback — no reply, no platform action (in
particular no `restrict_chat_member` with `can_send_messages := true`),
no state change — even for an administrator, in either state. -/
theorem C6_unmute_button_offered_but_unhandled :
    (Button.mk "Unmute User" "unmute_user") ∈ manageKeyboard.flatten ∧
    route .IDLE (.callback "unmute_user" ⟨some "menu", none⟩ taro .group) adminEnv =
      .ok (.IDLE, [], []) ∧
    route .CHATTING (.callback "unmute_user" ⟨some "menu", none⟩ taro .group) adminEnv =
      .ok (.CHATTING, [], []) := by
  refine ⟨?_, rfl, rfl⟩
  simp [manageKeyboard]

/-- C10: a non-administrator pressing the Manage button in a group chat:
the authorization check's own denial attempt raises on the missing
`update.message` and is swallowed by the check's handler, the check
returns false without raising, and the user receives exactly one denial
reply — the one `show_manage_menu` sends. -/
theorem C10_callback_auth_check_swallows_inner_raise
    (s : SessionState) (menuMsg : Msg) (sender : User) (chat : ChatType) (env : Env)
    (st : MemberStatus) (hg : chat = .group ∨ chat = .supergroup)
    (hcm : env.chatMember = .ok st) (hst : ¬(st = .creator ∨ st = .administrator)) :
    is_admin_try ⟨chat, sender, none, some ⟨"manage_group", menuMsg⟩⟩ env = .error () ∧
    is_admin ⟨chat, sender, none, some ⟨"manage_group", menuMsg⟩⟩ env = (false, []) ∧
    route s (.callback "manage_group" menuMsg sender chat) env =
      .ok (.IDLE, [Out.send adminMenuDenial []], []) := by
  have hauth : authorized chat env = false := by
    unfold authorized
    rcases hg with hg | hg <;> subst hg <;> simp [hcm, hst]
  refine ⟨?_, ?_, ?_⟩
  · unfold is_admin_try
    rw [hcm]
    simp [hst, replyText]
  · rw [is_admin_callback_update, hauth]
  · rw [show route s (.callback "manage_group" menuMsg sender chat) env =
        liftConv (show_manage_menu ⟨chat, sender, none, some ⟨"manage_group", menuMsg⟩⟩ env)
        from rfl,
      show_manage_menu_spec, hauth]
    rfl

/-- C10 witness: a plain member pressing Manage in a group chat. -/
theorem C10_callback_auth_check_swallows_inner_raise_witness :
    ((ChatType.group = ChatType.group ∨ ChatType.group = ChatType.supergroup) ∧
     sampleEnv.chatMember = .ok .member ∧
     ¬(MemberStatus.member = .creator ∨ MemberStatus.member = .administrator)) ∧
    (is_admin_try ⟨.group, taro, none, some ⟨"manage_group", ⟨some "menu", none⟩⟩⟩ sampleEnv =
       .error () ∧
     is_admin ⟨.group, taro, none, some ⟨"manage_group", ⟨some "menu", none⟩⟩⟩ sampleEnv =
       (false, []) ∧
     route .IDLE (.callback "manage_group" ⟨some "menu", none⟩ taro .group) sampleEnv =
       .ok (.IDLE, [Out.send adminMenuDenial []], [])) :=
  ⟨⟨Or.inl rfl, rfl, by decide⟩,
   C10_callback_auth_check_swallows_inner_raise .IDLE ⟨some "menu", none⟩ taro .group
     sampleEnv .member (Or.inl rfl) rfl (by decide)⟩

/-- C2 counterexample: routing the `/kick` command while the session is
`CHATTING` leaves it `CHATTING` — not `IDLE` — refuting both the claim's
clause that routing any command leaves the session in state `IDLE` and
its only-if direction (`/kick` is neither the begin-chat button press nor
a text message). -/
theorem C2_counterexample :
    route .CHATTING (.command "kick" ⟨some "/kick", some hanako⟩ taro .privateChat)
        sampleEnv =
      .ok (.CHATTING, [], []) ∧ SessionState.CHATTING ≠ SessionState.IDLE :=
  ⟨rfl, by decide⟩

/-- C2 amended: no routed event raises, and the session is `CHATTING`
after routing iff the event was the begin-chat button press, or the
session was already `CHATTING` and the event was not conversation-ending
(not `/start` and not a recognized menu-navigation button press). In
particular membership commands, unknown commands, unrecognized callbacks
and text messages leave the session state unchanged rather than
resetting it to `IDLE`. -/
theorem C2_chatting_state_characterization
    (s : SessionState) (e : Event) (env : Env) :
    (∃ r, route s e env = .ok r) ∧
    (routeState s e env = .CHATTING ↔
      (e.beginsChat = true ∨ (s = .CHATTING ∧ e.endsConversation = false))) := by
  refine ⟨route_never_raises s e env, ?_⟩
  cases e with
  | command n msg sender chat =>
    by_cases h1 : n = "start"
    · subst h1
      have hs : routeState s (.command "start" msg sender chat) env = .IDLE := rfl
      rw [hs]
      simp [Event.beginsChat, Event.endsConversation]
    by_cases h2 : n = "kick"
    · subst h2
      obtain ⟨o, a, hk⟩ := kick_user_ok msg sender chat env
      have hs : routeState s (.command "kick" msg sender chat) env = s := by
        unfold routeState
        rw [show route s (.command "kick" msg sender chat) env =
            liftCmd s (kick_user ⟨chat, sender, some msg, none⟩ env) from rfl, hk]
        rfl
      rw [hs]
      simp [Event.beginsChat, Event.endsConversation]
    by_cases h3 : n = "ban"
    · subst h3
      obtain ⟨o, a, hk⟩ := ban_user_ok msg sender chat env
      have hs : routeState s (.command "ban" msg sender chat) env = s := by
        unfold routeState
        rw [show route s (.command "ban" msg sender chat) env =
            liftCmd s (ban_user ⟨chat, sender, some msg, none⟩ env) from rfl, hk]
        rfl
      rw [hs]
      simp [Event.beginsChat, Event.endsConversation]
    by_cases h4 : n = "mute"
    · subst h4
      obtain ⟨o, a, hk⟩ := mute_user_ok msg sender chat env
      have hs : routeState s (.command "mute" msg sender chat) env = s := by
        unfold routeState
        rw [show route s (.command "mute" msg sender chat) env =
            liftCmd s (mute_user ⟨chat, sender, some msg, none⟩ env) from rfl, hk]
        rfl
      rw [hs]
      simp [Event.beginsChat, Event.endsConversation]
    · have hs : routeState s (.command n msg sender chat) env = s := by
        unfold routeState
        simp only [route]
        rw [if_neg h1, if_neg h2, if_neg h3, if_neg h4]
      rw [hs]
      simp [Event.beginsChat, Event.endsConversation, h1]
  | callback tag menuMsg sender chat =>
    by_cases h1 : tag = "chat_start"
    · subst h1
      have hs : routeState s (.callback "chat_start" menuMsg sender chat) env =
          .CHATTING := rfl
      rw [hs]
      simp [Event.beginsChat]
    by_cases h2 : tag = "manage_group"
    · subst h2
      have hs : routeState s (.callback "manage_group" menuMsg sender chat) env =
          .IDLE := by
        unfold routeState
        rw [show route s (.callback "manage_group" menuMsg sender chat) env =
            liftConv (show_manage_menu ⟨chat, sender, none,
              some ⟨"manage_group", menuMsg⟩⟩ env) from rfl,
          show_manage_menu_spec]
        rfl
      rw [hs]
      simp [Event.beginsChat, Event.endsConversation]
    by_cases h3 : tag = "help_menu"
    · subst h3
      have hs : routeState s (.callback "help_menu" menuMsg sender chat) env =
          .IDLE := rfl
      rw [hs]
      simp [Event.beginsChat, Event.endsConversation]
    by_cases h4 : tag = "main_menu"
    · subst h4
      have hs : routeState s (.callback "main_menu" menuMsg sender chat) env =
          .IDLE := rfl
      rw [hs]
      simp [Event.beginsChat, Event.endsConversation]
    · have hs : routeState s (.callback tag menuMsg sender chat) env = s := by
        unfold routeState
        simp only [route]
        rw [if_neg h1, if_neg h2, if_neg h3, if_neg h4]
      rw [hs]
      simp [Event.beginsChat, Event.endsConversation, h1, h2, h3, h4]
  | textMessage msg sender chat =>
    cases s with
    | IDLE =>
      have hs : routeState .IDLE (.textMessage msg sender chat) env = .IDLE := rfl
      rw [hs]
      simp [Event.beginsChat, Event.endsConversation]
    | CHATTING =>
      obtain ⟨mt, rt⟩ := msg
      have hs : routeState .CHATTING (.textMessage ⟨mt, rt⟩ sender chat) env =
          .CHATTING := by
        unfold routeState
        rw [show route .CHATTING (.textMessage ⟨mt, rt⟩ sender chat) env =
            liftConv (handle_chat ⟨chat, sender, some ⟨mt, rt⟩, none⟩ env) from rfl,
          handle_chat_spec]
        rfl
      rw [hs]
      simp [Event.beginsChat, Event.endsConversation]

end Sakura
